import Mathlib

/-!
Shallow embedding of `rust/hyperlane-core/src/traits/pending_operation.rs`:
the queue-operation ordering rule, the status/reason enumerations with their
display strings and their persisted encoding, and the batch cost-accounting
functions.  Machine integers are embedded as their numeric values: `u32`,
`H256` ids and `Instant` timestamps become `Nat` (their orderings are
order-isomorphic to the numeric order used by Rust's derived `Ord`), and
`U256` becomes a `Nat` bounded by `2 ^ 256`.
-/

/-- Size bound of the 256-bit unsigned integer type `U256`. -/
def U256.size : Nat := 2 ^ 256

/-- The 256-bit unsigned integer type used for gas amounts and costs. -/
structure U256 where
  val : Nat
  isLt : val < U256.size
deriving DecidableEq

theorem U256.size_pos : 0 < U256.size := Nat.pos_pow_of_pos 256 (by decide)

/-- `U256::zero()`. -/
def U256.zero : U256 := ⟨0, U256.size_pos⟩

/-- `U256::saturating_add`: addition clamped at the maximal 256-bit value. -/
def U256.saturating_add (a b : U256) : U256 :=
  if h : a.val + b.val < U256.size then ⟨a.val + b.val, h⟩
  else ⟨U256.size - 1, Nat.sub_lt U256.size_pos (by decide)⟩

theorem U256.ext_val {a b : U256} (h : a.val = b.val) : a = b := by
  cases a; cases b; simp_all

/-- Three-way comparison of natural numbers, embedding Rust's `Ord::cmp`
on the integer and timestamp types. -/
def natCompare (a b : Nat) : Ordering :=
  if a < b then Ordering.lt else if b < a then Ordering.gt else Ordering.eq

theorem natCompare_eq_lt_iff (a b : Nat) : natCompare a b = Ordering.lt ↔ a < b := by
  unfold natCompare
  split
  · simp_all
  · split <;> simp_all

theorem natCompare_eq_eq_iff (a b : Nat) : natCompare a b = Ordering.eq ↔ a = b := by
  unfold natCompare
  split
  · constructor
    · intro h; cases h
    · intro h; omega
  · split
    · constructor
      · intro h; cases h
      · intro h; omega
    · constructor
      · intro _; omega
      · intro _; rfl

/-- The data of a boxed `QueueOperation` that its `PartialEq`/`Ord` impls and
the cost-accounting functions observe through the `PendingOperation` trait
accessors: `id()` (`H256`), `priority()` (`u32`), `origin_domain_id()` (`u32`),
`next_attempt_after()` (`Option<Instant>`), `get_tx_cost_estimate()`
(`Option<U256>`). -/
structure QueueOperation where
  id : Nat
  priority : Nat
  origin_domain_id : Nat
  next_attempt_after : Option Nat
  tx_cost_estimate : Option U256
deriving DecidableEq

/-- `impl Ord for QueueOperation`: compare `next_attempt_after` (absence sorts
first, two timestamps compare ascending); on a tie, same-origin operations
compare by `priority` and cross-origin operations compare by `id`. -/
def QueueOperation.cmp (a b : QueueOperation) : Ordering :=
  match a.next_attempt_after, b.next_attempt_after with
  | some x, some y => natCompare x y
  | none, some _ => Ordering.lt
  | some _, none => Ordering.gt
  | none, none =>
    if a.origin_domain_id = b.origin_domain_id then
      natCompare a.priority b.priority
    else
      natCompare a.id b.id

/-- `impl PartialEq for QueueOperation`: equality is `id` equality only. -/
def QueueOperation.beq (a b : QueueOperation) : Bool :=
  a.id == b.id

/-- The claim fails: the comparator is not transitive.  With no
`next_attempt_after` anywhere, `a` precedes `b` by priority (same origin) and
`b` precedes `c` by id (different origins), yet `a` follows `c` by id.
Moreover two distinct-id operations with equal timestamps compare `Equal`. -/
theorem cmp_not_strict_total_order :
    QueueOperation.cmp ⟨10, 0, 1, none, none⟩ ⟨1, 5, 1, none, none⟩ = Ordering.lt ∧
    QueueOperation.cmp ⟨1, 5, 1, none, none⟩ ⟨5, 9, 2, none, none⟩ = Ordering.lt ∧
    QueueOperation.cmp ⟨10, 0, 1, none, none⟩ ⟨5, 9, 2, none, none⟩ = Ordering.gt ∧
    QueueOperation.cmp ⟨1, 0, 0, some 5, none⟩ ⟨2, 0, 0, some 5, none⟩ = Ordering.eq ∧
    QueueOperation.beq ⟨1, 0, 0, some 5, none⟩ ⟨2, 0, 0, some 5, none⟩ = false := by
  decide

/-- The comparator follows the three-tier lexicographic rule: a timestampless
operation sorts strictly before a timestamped one; two timestamped operations
compare by timestamp ascending; two timestampless operations of the same
origin compare by priority ascending, and of different origins by id. -/
theorem cmp_three_tier (a b : QueueOperation) :
    (a.next_attempt_after = none → ∀ t, b.next_attempt_after = some t →
      QueueOperation.cmp a b = Ordering.lt) ∧
    (∀ ta tb, a.next_attempt_after = some ta → b.next_attempt_after = some tb →
      ((QueueOperation.cmp a b = Ordering.lt ↔ ta < tb) ∧
       (QueueOperation.cmp a b = Ordering.eq ↔ ta = tb))) ∧
    (a.next_attempt_after = none → b.next_attempt_after = none →
      a.origin_domain_id = b.origin_domain_id →
      (QueueOperation.cmp a b = Ordering.lt ↔ a.priority < b.priority)) ∧
    (a.next_attempt_after = none → b.next_attempt_after = none →
      a.origin_domain_id ≠ b.origin_domain_id →
      (QueueOperation.cmp a b = Ordering.lt ↔ a.id < b.id)) := by
  refine ⟨?_, ?_, ?_, ?_⟩
  · intro ha t hb
    unfold QueueOperation.cmp
    rw [ha, hb]
  · intro ta tb ha hb
    unfold QueueOperation.cmp
    rw [ha, hb]
    exact ⟨natCompare_eq_lt_iff ta tb, natCompare_eq_eq_iff ta tb⟩
  · intro ha hb hor
    unfold QueueOperation.cmp
    rw [ha, hb, if_pos hor]
    exact natCompare_eq_lt_iff a.priority b.priority
  · intro ha hb hor
    unfold QueueOperation.cmp
    rw [ha, hb, if_neg hor]
    exact natCompare_eq_lt_iff a.id b.id

/-- Concrete instance of the three-tier rule: a timestampless operation sorts
before a timestamped one whose due time is in the past. -/
theorem cmp_three_tier_witness :
    QueueOperation.cmp ⟨1, 0, 0, none, none⟩ ⟨2, 0, 0, some 7, none⟩ = Ordering.lt :=
  (cmp_three_tier ⟨1, 0, 0, none, none⟩ ⟨2, 0, 0, some 7, none⟩).1 rfl 7 rfl

/-- Reasons for repreparing an operation (`ReprepareReason`). -/
inductive ReprepareReason where
  | ErrorCheckingDeliveryStatus
  | ErrorCheckingIfRecipientIsContract
  | ErrorFetchingIsmAddress
  | ErrorGettingMetadataBuilder
  | ErrorBuildingMetadata
  | CouldNotFetchMetadata
  | ErrorEstimatingGas
  | ErrorCheckingGasRequirement
  | GasPaymentRequirementNotMet
  | ExceedsMaxGasLimit
  | RevertedOrReorged
deriving DecidableEq, Fintype

/-- Reasons for sending an operation to the confirmation step (`ConfirmReason`). -/
inductive ConfirmReason where
  | SubmittedBySelf
  | AlreadySubmitted
  | ErrorConfirmingDelivery
  | ErrorRecordingProcessSuccess
deriving DecidableEq, Fintype

/-- Status of a pending operation (`PendingOperationStatus`). -/
inductive PendingOperationStatus where
  | FirstPrepareAttempt
  | Retry (reason : ReprepareReason)
  | ReadyToSubmit
  | Confirm (reason : ConfirmReason)
deriving DecidableEq, Fintype

/-- The strum `Display` string of each `ReprepareReason` variant, from its
`#[strum(to_string = "...")]` attribute. -/
def ReprepareReason.display : ReprepareReason → String
  | .ErrorCheckingDeliveryStatus => "Error checking message delivery status"
  | .ErrorCheckingIfRecipientIsContract => "Error checking if message recipient is a contract"
  | .ErrorFetchingIsmAddress => "Error fetching ISM address"
  | .ErrorGettingMetadataBuilder => "Error getting message metadata builder"
  | .ErrorBuildingMetadata => "Error building metadata"
  | .CouldNotFetchMetadata => "Could not fetch metadata"
  | .ErrorEstimatingGas => "Error estimating costs for process call"
  | .ErrorCheckingGasRequirement => "Error checking if message meets gas payment requirement"
  | .GasPaymentRequirementNotMet => "Gas payment requirement not met"
  | .ExceedsMaxGasLimit => "Message delivery estimated gas exceeds max gas limit"
  | .RevertedOrReorged => "Delivery transaction reverted or reorged"

/-- The strum `Display` string of each `ConfirmReason` variant: the
`to_string` attribute where one is given, and strum's default — the bare
variant name — for the two variants without one. -/
def ConfirmReason.display : ConfirmReason → String
  | .SubmittedBySelf => "Submitted by this relayer"
  | .AlreadySubmitted => "Already submitted, awaiting confirmation"
  | .ErrorConfirmingDelivery => "ErrorConfirmingDelivery"
  | .ErrorRecordingProcessSuccess => "ErrorRecordingProcessSuccess"

/-- The strum `Display` string of each `PendingOperationStatus` variant: the
parameterized variants interpolate the carried reason's display string into
`Retry({0})` / `Confirm({0})`, the others render as their variant name. -/
def PendingOperationStatus.display : PendingOperationStatus → String
  | .FirstPrepareAttempt => "FirstPrepareAttempt"
  | .Retry r => "Retry(" ++ r.display ++ ")"
  | .ReadyToSubmit => "ReadyToSubmit"
  | .Confirm c => "Confirm(" ++ c.display ++ ")"

/-- The serde identifier of a `ReprepareReason` variant, as used by the
derived `Serialize`/`Deserialize` impls. -/
def ReprepareReason.serdeName : ReprepareReason → String
  | .ErrorCheckingDeliveryStatus => "ErrorCheckingDeliveryStatus"
  | .ErrorCheckingIfRecipientIsContract => "ErrorCheckingIfRecipientIsContract"
  | .ErrorFetchingIsmAddress => "ErrorFetchingIsmAddress"
  | .ErrorGettingMetadataBuilder => "ErrorGettingMetadataBuilder"
  | .ErrorBuildingMetadata => "ErrorBuildingMetadata"
  | .CouldNotFetchMetadata => "CouldNotFetchMetadata"
  | .ErrorEstimatingGas => "ErrorEstimatingGas"
  | .ErrorCheckingGasRequirement => "ErrorCheckingGasRequirement"
  | .GasPaymentRequirementNotMet => "GasPaymentRequirementNotMet"
  | .ExceedsMaxGasLimit => "ExceedsMaxGasLimit"
  | .RevertedOrReorged => "RevertedOrReorged"

/-- The serde identifier of a `ConfirmReason` variant. -/
def ConfirmReason.serdeName : ConfirmReason → String
  | .SubmittedBySelf => "SubmittedBySelf"
  | .AlreadySubmitted => "AlreadySubmitted"
  | .ErrorConfirmingDelivery => "ErrorConfirmingDelivery"
  | .ErrorRecordingProcessSuccess => "ErrorRecordingProcessSuccess"

/-- Error type of `Decode::read_from` (`HyperlaneProtocolError`); decoding
failures surface as its I/O error variant. -/
inductive HyperlaneProtocolError where
  | IoError (msg : String)
deriving DecidableEq

/-- Modelled from the spec: `impl Encode for PendingOperationStatus` writes
`serde_json::to_vec(self)` — serde_json is an external crate and the
`Encode` trait lives outside the extracted source — "a length-prefixed
self-describing byte encoding, here realized as UTF-8 text of a structured
object".  The derived serde representation of this enum is the externally
tagged JSON form: a bare string for a unit variant and a one-field object
mapping the variant name to the carried reason's name for a newtype
variant. -/
def PendingOperationStatus.encode : PendingOperationStatus → String
  | .FirstPrepareAttempt => "\"FirstPrepareAttempt\""
  | .Retry r => "\x7b\"Retry\":\"" ++ r.serdeName ++ "\"\x7d"
  | .ReadyToSubmit => "\"ReadyToSubmit\""
  | .Confirm c => "\x7b\"Confirm\":\"" ++ c.serdeName ++ "\"\x7d"

/-- Every `ReprepareReason` variant. -/
def allReprepareReasons : List ReprepareReason :=
  [.ErrorCheckingDeliveryStatus, .ErrorCheckingIfRecipientIsContract,
   .ErrorFetchingIsmAddress, .ErrorGettingMetadataBuilder,
   .ErrorBuildingMetadata, .CouldNotFetchMetadata, .ErrorEstimatingGas,
   .ErrorCheckingGasRequirement, .GasPaymentRequirementNotMet,
   .ExceedsMaxGasLimit, .RevertedOrReorged]

/-- Every `ConfirmReason` variant. -/
def allConfirmReasons : List ConfirmReason :=
  [.SubmittedBySelf, .AlreadySubmitted, .ErrorConfirmingDelivery,
   .ErrorRecordingProcessSuccess]

/-- Every `PendingOperationStatus` value. -/
def allStatuses : List PendingOperationStatus :=
  [PendingOperationStatus.FirstPrepareAttempt, PendingOperationStatus.ReadyToSubmit]
    ++ allReprepareReasons.map PendingOperationStatus.Retry
    ++ allConfirmReasons.map PendingOperationStatus.Confirm

/-- Modelled from the spec: `impl Decode for PendingOperationStatus` runs
`serde_json::from_reader` (external crate) over the closed variant set and
"must fail with a distinguishable I/O-class error when the bytes are not a
valid encoding of the closed variant set, never silently defaulting to a
variant".  Embedded as recognition of exactly the canonical encodings the
serializer produces; anything else fails with the I/O error the source
constructs. -/
def PendingOperationStatus.decode (s : String) :
    Except HyperlaneProtocolError PendingOperationStatus :=
  match allStatuses.find? (fun st => st.encode == s) with
  | some st => Except.ok st
  | none => Except.error (HyperlaneProtocolError.IoError "Failed to deserialize")

/-- Decoding the bytes produced by encoding any `PendingOperationStatus`
value, including every `Retry` and `Confirm` sub-variant, yields that value
back. -/
theorem status_encode_decode_roundtrip (s : PendingOperationStatus) :
    PendingOperationStatus.decode (PendingOperationStatus.encode s) = Except.ok s := by
  cases s with
  | FirstPrepareAttempt => rfl
  | ReadyToSubmit => rfl
  | Retry r => cases r <;> rfl
  | Confirm c => cases c <;> rfl

/-- Any string that is not the encoding of some status value fails to decode,
with the I/O-class error the source constructs; no default variant is ever
returned for malformed input. -/
theorem decode_rejects_invalid (s : String)
    (h : ∀ st : PendingOperationStatus, PendingOperationStatus.encode st ≠ s) :
    PendingOperationStatus.decode s
      = Except.error (HyperlaneProtocolError.IoError "Failed to deserialize") := by
  unfold PendingOperationStatus.decode
  cases hfind : allStatuses.find? (fun st => st.encode == s) with
  | none => rfl
  | some st =>
      have hp := List.find?_some hfind
      simp only [beq_iff_eq] at hp
      exact absurd hp (h st)

/-- Concrete instance: the empty byte string is no valid encoding, and
decoding it fails with the I/O error. -/
theorem decode_rejects_invalid_witness :
    (∀ st : PendingOperationStatus, PendingOperationStatus.encode st ≠ "") ∧
    PendingOperationStatus.decode ""
      = Except.error (HyperlaneProtocolError.IoError "Failed to deserialize") :=
  ⟨by decide, decode_rejects_invalid "" (by decide)⟩

/-- The claim fails: `ReprepareReason` has eleven variants, not ten. -/
theorem reprepare_reason_count_not_ten : ¬ (Fintype.card ReprepareReason = 10) := by
  decide

/-- `ReprepareReason` is a closed enumeration of exactly eleven causes, and
its display mapping is injective: each cause has its own fixed explanation
string. -/
theorem reprepare_reason_eleven_injective_display :
    Fintype.card ReprepareReason = 11 ∧ Function.Injective ReprepareReason.display := by
  exact ⟨by decide, by decide⟩

/-- Every status and reason renders through a dedicated display string: the
display mappings of statuses and of both reason enumerations are injective
(one fixed string per variant), and the parameterized statuses render as
`Retry(...)` / `Confirm(...)` around the carried reason's display string. -/
theorem display_dedicated_strings :
    Function.Injective PendingOperationStatus.display ∧
    Function.Injective ReprepareReason.display ∧
    Function.Injective ConfirmReason.display ∧
    (∀ r, PendingOperationStatus.display (PendingOperationStatus.Retry r)
        = "Retry(" ++ r.display ++ ")") ∧
    (∀ c, PendingOperationStatus.display (PendingOperationStatus.Confirm c)
        = "Confirm(" ++ c.display ++ ")") :=
  ⟨by decide, by decide, by decide, fun _ => rfl, fun _ => rfl⟩

/-- `total_estimated_cost`: fold over the batch, saturating-adding each
operation's cost estimate and leaving the accumulator unchanged (after a
warning) when the estimate is absent. -/
def total_estimated_cost (ops : List QueueOperation) : U256 :=
  ops.foldl
    (fun acc op =>
      match op.tx_cost_estimate with
      | some cost_estimate => acc.saturating_add cost_estimate
      | none => acc)
    U256.zero

/-- The spec's description of the batch total, stated independently of the
source's fold: the saturating sum of exactly those cost estimates that are
present. -/
def specSaturatingSum (costs : List U256) : U256 :=
  costs.foldl U256.saturating_add U256.zero

theorem total_estimated_cost_go (ops : List QueueOperation) (acc : U256) :
    ops.foldl
      (fun acc op =>
        match op.tx_cost_estimate with
        | some cost_estimate => acc.saturating_add cost_estimate
        | none => acc)
      acc
    = (ops.filterMap QueueOperation.tx_cost_estimate).foldl U256.saturating_add acc := by
  induction ops generalizing acc with
  | nil => rfl
  | cons op rest ih =>
      cases hop : op.tx_cost_estimate with
      | none => simp [List.filterMap_cons, hop, ih]
      | some c => simp [List.filterMap_cons, hop, ih]

/-- The batch total is the saturating sum of the estimates of exactly the
members that have one: an absent estimate contributes nothing, and the
function is total (never fails, saturating on overflow). -/
theorem total_estimated_cost_eq_spec (ops : List QueueOperation) :
    total_estimated_cost ops
      = specSaturatingSum (ops.filterMap QueueOperation.tx_cost_estimate) :=
  total_estimated_cost_go ops U256.zero

/-- The batch total of an empty batch is zero. -/
theorem total_estimated_cost_nil : total_estimated_cost [] = U256.zero := rfl

/-- Modelled from the spec: `FixedPointNumber` (defined outside the extracted
source) is "a fixed-point decimal domain (not floating point)" used to
compute the pro-rata attribution exactly; embedded as the rationals. -/
def FixedPointNumber : Type := Rat

/-- Modelled from the spec: `FixedPointNumber::try_from(U256)` converts a
gas value into the fixed-point domain. -/
def FixedPointNumber.ofU256 (u : U256) : Rat := (u.val : Rat)

/-- Modelled from the spec: `CheckedDiv::checked_div`, which is `None`
exactly when the divisor is zero. -/
def FixedPointNumber.checked_div (a b : Rat) : Option Rat :=
  if b = 0 then none else some (a / b)

/-- Error type of `gas_used_by_operation` (`ChainResult` failure): either the
division-by-zero condition or a failed conversion back to `U256`. -/
inductive ChainError where
  | divisionByZero
  | conversionFailed
deriving DecidableEq

/-- Modelled from the spec: conversion from the fixed-point domain back to
`U256` (`gas_used_by_operation.try_into()`), succeeding on integral values in
the 256-bit range. -/
def FixedPointNumber.tryIntoU256 (q : Rat) : Except ChainError U256 :=
  if h : q.den = 1 ∧ 0 ≤ q.num ∧ q.num.toNat < U256.size then
    Except.ok ⟨q.num.toNat, h.2.2⟩
  else Except.error ChainError.conversionFailed

/-- The realized result of a submitted transaction (`TxOutcome`, defined
outside the extracted source); only its `gas_used` field is read here. -/
structure TxOutcome where
  gas_used : U256

/-- `gas_used_by_operation`: pro-rata attribution
`gas_used_by_tx * operation_estimate / tx_estimate` in the fixed-point
domain, failing on a zero divisor. -/
def gas_used_by_operation (tx_outcome : TxOutcome) (tx_estimated_cost : U256)
    (operation_estimated_cost : U256) : Except ChainError U256 :=
  let gas_used_by_tx := FixedPointNumber.ofU256 tx_outcome.gas_used
  let operation_gas_estimate := FixedPointNumber.ofU256 operation_estimated_cost
  let tx_gas_estimate := FixedPointNumber.ofU256 tx_estimated_cost
  match FixedPointNumber.checked_div (gas_used_by_tx * operation_gas_estimate)
      tx_gas_estimate with
  | none => Except.error ChainError.divisionByZero
  | some q => FixedPointNumber.tryIntoU256 q

/-- In the single-operation case — the same nonzero cost passed for the
transaction estimate and the operation estimate — the pro-rata ratio is one
and the attribution is exactly the gas used by the transaction. -/
theorem gas_used_by_operation_degenerate (o : TxOutcome) (c : U256)
    (hc : c.val ≠ 0) : gas_used_by_operation o c c = Except.ok o.gas_used := by
  obtain ⟨⟨g, hg⟩⟩ := o
  have hq : ((c.val : Rat)) ≠ 0 := Nat.cast_ne_zero.mpr hc
  unfold gas_used_by_operation FixedPointNumber.checked_div FixedPointNumber.ofU256
  simp only [if_neg hq]
  have hdiv : ((g : Rat)) * (c.val : Rat) / (c.val : Rat) = (g : Rat) :=
    mul_div_cancel_right₀ _ hq
  simp only [hdiv]
  unfold FixedPointNumber.tryIntoU256
  rw [dif_pos]
  · exact congrArg Except.ok (U256.ext_val (by simp))
  · refine ⟨by simp, by simp, ?_⟩
    simpa using hg

/-- Concrete instance of the degenerate case: seven units of gas attributed
with equal estimates of three come back as seven. -/
theorem gas_used_by_operation_degenerate_witness :
    gas_used_by_operation ⟨⟨7, by decide⟩⟩ ⟨3, by decide⟩ ⟨3, by decide⟩
      = Except.ok ⟨7, by decide⟩ :=
  gas_used_by_operation_degenerate ⟨⟨7, by decide⟩⟩ ⟨3, by decide⟩ (by decide)

/-- With a zero transaction estimate the checked division fails and the
function returns the division error, whatever the other inputs. -/
theorem gas_used_by_operation_div_zero (o : TxOutcome) (t opc : U256)
    (ht : t.val = 0) :
    gas_used_by_operation o t opc = Except.error ChainError.divisionByZero := by
  unfold gas_used_by_operation FixedPointNumber.checked_div FixedPointNumber.ofU256
  simp [ht]

/-- Concrete instance of the division error: a zero transaction estimate
fails whatever the gas used and the operation estimate. -/
theorem gas_used_by_operation_div_zero_witness :
    gas_used_by_operation ⟨⟨7, by decide⟩⟩ U256.zero ⟨3, by decide⟩
      = Except.error ChainError.divisionByZero :=
  gas_used_by_operation_div_zero ⟨⟨7, by decide⟩⟩ U256.zero ⟨3, by decide⟩ rfl
